import Mathlib

/-!
Shallow embedding of `src/io/stdio.rs` from the rustix repository: the nine
accessors for the three standard stream file descriptors, in borrowed
(`stdin`/`stdout`/`stderr`, with a `std` and a `no_std` build variant each),
owned (`take_stdin`/`take_stdout`/`take_stderr`) and raw
(`raw_stdin`/`raw_stdout`/`raw_stderr`) forms.

The accessors are interpreted world-passing over an explicit effect state (the
log of close operations issued so far), so that absence of side effects,
determinism, and the close-on-release behaviour of owned handles are statable
properties rather than conventions.
-/

namespace Rustix

/-- The Rust type `RawFd` (a C `int`), modelled as `Int`. The values produced
here are the constants 0, 1, 2, so no overflow arises. -/
abbrev RawFd := Int

/-- Modelled from the spec: `backend::io::types::STDIN_FILENO`. The backend
module is not included under `src/`; the spec fixes the three standard slots
"by POSIX convention: 0, 1, 2". -/
def STDIN_FILENO : RawFd := 0

/-- Modelled from the spec: `backend::io::types::STDOUT_FILENO`, the fixed
integer identity 1 of the standard output slot. -/
def STDOUT_FILENO : RawFd := 1

/-- Modelled from the spec: `backend::io::types::STDERR_FILENO`, the fixed
integer identity 2 of the standard error slot. -/
def STDERR_FILENO : RawFd := 2

/-- `backend::fd::BorrowedFd`: a non-owning handle wrapping a raw file
descriptor. -/
structure BorrowedFd where
  raw : RawFd
  deriving DecidableEq, Repr

/-- `crate::fd::OwnedFd`: an owning handle wrapping a raw file descriptor;
closes it when dropped. -/
structure OwnedFd where
  raw : RawFd
  deriving DecidableEq, Repr

/-- `BorrowedFd::borrow_raw`: wraps a raw descriptor into a borrowed handle.
Per spec section 6, the collaborator constructor performs no validation and no
effect. -/
def BorrowedFd.borrow_raw (fd : RawFd) : BorrowedFd := ⟨fd⟩

/-- `FromRawFd::from_raw_fd` on `backend::fd::OwnedFd`: wraps a raw descriptor
into an owning handle. Per spec section 4, no close happens at construction;
only the future-close responsibility is registered in the returned value. -/
def OwnedFd.from_raw_fd (fd : RawFd) : OwnedFd := ⟨fd⟩

/-- The observable effect state of the world: the sequence of close operations
issued so far, each recorded by the raw descriptor it targeted. Every accessor
is interpreted world-passing; an accessor that performs no effect returns the
world unchanged. -/
structure World where
  closes : List RawFd
  deriving DecidableEq, Repr

/-- How many close operations have been issued on a given raw descriptor. -/
def World.closeCount (w : World) (fd : RawFd) : Nat := w.closes.count fd

/-- `pub const fn stdin() -> BorrowedFd` (cfg `feature = "std"`), stdio.rs
lines 36-40: the body is
`BorrowedFd::borrow_raw(backend::io::types::STDIN_FILENO as RawFd)`. The cast
`as RawFd` is the identity (the constant already has the C `int` type). The
body calls only `borrow_raw`, which performs no effect, so the interpretation
leaves the world unchanged. -/
def stdin (w : World) : BorrowedFd × World :=
  (BorrowedFd.borrow_raw STDIN_FILENO, w)

/-- `pub const unsafe fn stdin() -> BorrowedFd` (cfg `not(feature = "std")`),
stdio.rs lines 70-72: the body is identical to the `std` variant; only the
`unsafe` annotation differs. -/
def stdin_no_std (w : World) : BorrowedFd × World :=
  (BorrowedFd.borrow_raw STDIN_FILENO, w)

/-- `pub const fn stdout() -> BorrowedFd` (cfg `feature = "std"`), stdio.rs
lines 122-126. -/
def stdout (w : World) : BorrowedFd × World :=
  (BorrowedFd.borrow_raw STDOUT_FILENO, w)

/-- `pub const unsafe fn stdout() -> BorrowedFd` (cfg `not(feature = "std")`),
stdio.rs lines 156-158: identical body to the `std` variant. -/
def stdout_no_std (w : World) : BorrowedFd × World :=
  (BorrowedFd.borrow_raw STDOUT_FILENO, w)

/-- `pub const fn stderr() -> BorrowedFd` (cfg `feature = "std"`), stdio.rs
lines 202-206. -/
def stderr (w : World) : BorrowedFd × World :=
  (BorrowedFd.borrow_raw STDERR_FILENO, w)

/-- `pub const unsafe fn stderr() -> BorrowedFd` (cfg `not(feature = "std")`),
stdio.rs lines 230-232: identical body to the `std` variant. -/
def stderr_no_std (w : World) : BorrowedFd × World :=
  (BorrowedFd.borrow_raw STDERR_FILENO, w)

/-- `pub unsafe fn take_stdin() -> OwnedFd`, stdio.rs lines 97-99: the body is
`OwnedFd::from_raw_fd(backend::io::types::STDIN_FILENO as RawFd)`. The
constructor issues no close, so the world is unchanged. -/
def take_stdin (w : World) : OwnedFd × World :=
  (OwnedFd.from_raw_fd STDIN_FILENO, w)

/-- `pub unsafe fn take_stdout() -> OwnedFd`, stdio.rs lines 183-185. -/
def take_stdout (w : World) : OwnedFd × World :=
  (OwnedFd.from_raw_fd STDOUT_FILENO, w)

/-- `pub unsafe fn take_stderr() -> OwnedFd`, stdio.rs lines 262-264. -/
def take_stderr (w : World) : OwnedFd × World :=
  (OwnedFd.from_raw_fd STDERR_FILENO, w)

/-- `pub const fn raw_stdin() -> RawFd`, stdio.rs lines 282-284: returns
`backend::io::types::STDIN_FILENO as RawFd`; no effect. -/
def raw_stdin (w : World) : RawFd × World := (STDIN_FILENO, w)

/-- `pub const fn raw_stdout() -> RawFd`, stdio.rs lines 302-304. -/
def raw_stdout (w : World) : RawFd × World := (STDOUT_FILENO, w)

/-- `pub const fn raw_stderr() -> RawFd`, stdio.rs lines 322-324. -/
def raw_stderr (w : World) : RawFd × World := (STDERR_FILENO, w)

/-- The Standard Slot kinds of the spec: input, output, error. In the source
the kind is a compile-time selection via distinct function names. -/
inductive SlotKind where
  | input
  | output
  | error
  deriving DecidableEq, Repr

/-- Spec-level dispatcher `raw_slot(kind)`: selects the corresponding raw
accessor from the source. -/
def raw_slot : SlotKind → World → RawFd × World
  | .input => raw_stdin
  | .output => raw_stdout
  | .error => raw_stderr

/-- Spec-level dispatcher `borrowed_slot(kind)`: selects the corresponding
borrowed accessor (the `std` variant) from the source. -/
def borrowed_slot : SlotKind → World → BorrowedFd × World
  | .input => stdin
  | .output => stdout
  | .error => stderr

/-- Spec-level dispatcher `owned_slot(kind)`: selects the corresponding owned
accessor from the source. -/
def owned_slot : SlotKind → World → OwnedFd × World
  | .input => take_stdin
  | .output => take_stdout
  | .error => take_stderr

/-- Modelled from the spec: the ownership lifecycle of an Owned Handle. The
drop implementation of `OwnedFd` lives in the descriptor-management
collaborator (`crate::fd`), which is not included under `src/`. An alive
lifecycle holds the handle; after release the handle is gone (ownership is
consumed on first release). -/
inductive OwnedLifecycle where
  | alive (ofd : OwnedFd)
  | released
  deriving DecidableEq, Repr

/-- Modelled from the spec: releasing (dropping) an Owned Handle "invokes the
close operation on the wrapped integer identity exactly once", and "releasing
it a second time must not be possible through the normal interface (ownership
is consumed on first release)". Release of an alive handle records one close
of the wrapped descriptor in the world and consumes the handle; release is not
available on an already-released lifecycle. -/
def releaseOwned : OwnedLifecycle → World → Option (OwnedLifecycle × World)
  | .alive ofd, w => some (.released, ⟨w.closes ++ [ofd.raw]⟩)
  | .released, _ => none

/-- The nine public entry points of the module (the `std` build for the
borrowed variants). -/
inductive EntryPoint where
  | borrowedIn
  | borrowedOut
  | borrowedErr
  | ownedIn
  | ownedOut
  | ownedErr
  | rawIn
  | rawOut
  | rawErr
  deriving DecidableEq, Repr

/-- The value returned by an entry point: a borrowed handle, an owned handle,
or a raw identity. -/
inductive RetValue where
  | borrowed (b : BorrowedFd)
  | owned (o : OwnedFd)
  | raw (r : RawFd)
  deriving DecidableEq, Repr

/-- The underlying raw integer identity of a returned value. -/
def RetValue.underlying : RetValue → RawFd
  | .borrowed b => b.raw
  | .owned o => o.raw
  | .raw r => r

/-- Uniform dispatch over the nine entry points. -/
def invoke (e : EntryPoint) (w : World) : RetValue × World :=
  match e with
  | .borrowedIn => (RetValue.borrowed (stdin w).1, (stdin w).2)
  | .borrowedOut => (RetValue.borrowed (stdout w).1, (stdout w).2)
  | .borrowedErr => (RetValue.borrowed (stderr w).1, (stderr w).2)
  | .ownedIn => (RetValue.owned (take_stdin w).1, (take_stdin w).2)
  | .ownedOut => (RetValue.owned (take_stdout w).1, (take_stdout w).2)
  | .ownedErr => (RetValue.owned (take_stderr w).1, (take_stderr w).2)
  | .rawIn => (RetValue.raw (raw_stdin w).1, (raw_stdin w).2)
  | .rawOut => (RetValue.raw (raw_stdout w).1, (raw_stdout w).2)
  | .rawErr => (RetValue.raw (raw_stderr w).1, (raw_stderr w).2)

/-- The nine entry points run as possibly-failing computations: the
translation of a body is `none` exactly when the body reaches a failure
construct (a panic, an early error return, a fallible operation). None of the
nine bodies contains any branch, validation, `Option`/`Result`, or panic, so
each translation is `some` of the straight-line result. -/
def invokeChecked (e : EntryPoint) (w : World) : Option (RetValue × World) :=
  match e with
  | .borrowedIn => some (RetValue.borrowed (stdin w).1, (stdin w).2)
  | .borrowedOut => some (RetValue.borrowed (stdout w).1, (stdout w).2)
  | .borrowedErr => some (RetValue.borrowed (stderr w).1, (stderr w).2)
  | .ownedIn => some (RetValue.owned (take_stdin w).1, (take_stdin w).2)
  | .ownedOut => some (RetValue.owned (take_stdout w).1, (take_stdout w).2)
  | .ownedErr => some (RetValue.owned (take_stderr w).1, (take_stderr w).2)
  | .rawIn => some (RetValue.raw (raw_stdin w).1, (raw_stdin w).2)
  | .rawOut => some (RetValue.raw (raw_stdout w).1, (raw_stdout w).2)
  | .rawErr => some (RetValue.raw (raw_stderr w).1, (raw_stderr w).2)

/-- Claim C1: for every standard slot kind, the raw accessor returns the
fixed platform integer identity of that kind: `raw_stdin` returns 0,
`raw_stdout` returns 1, `raw_stderr` returns 2, and the spec-level
`raw_slot(kind)` dispatch agrees. -/
theorem raw_slot_fixed_values (w : World) :
    (raw_stdin w).1 = 0 ∧ (raw_stdout w).1 = 1 ∧ (raw_stderr w).1 = 2 ∧
    (raw_slot .input w).1 = 0 ∧ (raw_slot .output w).1 = 1 ∧
    (raw_slot .error w).1 = 2 :=
  ⟨rfl, rfl, rfl, rfl, rfl, rfl⟩

/-- Claim C2: for every standard slot kind, the borrowed accessor returns a
`BorrowedFd` whose underlying integer identity equals the value returned by
the corresponding raw accessor. -/
theorem borrowed_wraps_raw (k : SlotKind) (w : World) :
    ((borrowed_slot k w).1).raw = (raw_slot k w).1 := by
  cases k <;> rfl

/-- Claim C3: for every standard slot kind, the owned accessor returns an
`OwnedFd` whose underlying integer identity equals the value returned by the
corresponding raw accessor. -/
theorem owned_wraps_raw (k : SlotKind) (w : World) :
    ((owned_slot k w).1).raw = (raw_slot k w).1 := by
  cases k <;> rfl

/-- Claim C4: releasing the `OwnedFd` produced by the owned accessor issues
exactly one close on the wrapped integer identity (the close count of that
descriptor rises by exactly one and the handle transitions to released), and a
second release of the same handle is impossible through the normal interface
(release is not available on a released lifecycle). -/
theorem release_closes_exactly_once (k : SlotKind) (w : World) :
    (∃ w₂ : World,
      releaseOwned (.alive (owned_slot k w).1) w = some (.released, w₂) ∧
      w₂.closeCount ((owned_slot k w).1).raw =
        w.closeCount ((owned_slot k w).1).raw + 1) ∧
    releaseOwned .released w = none := by
  refine ⟨⟨⟨w.closes ++ [((owned_slot k w).1).raw]⟩, rfl, ?_⟩, rfl⟩
  simp [World.closeCount]

/-- Claim C5: constructing an owned handle performs no close: for every kind,
`take_stdin`/`take_stdout`/`take_stderr` leave the world (the log of issued
closes) unchanged. -/
theorem take_no_close_at_construction (w : World) :
    (take_stdin w).2 = w ∧ (take_stdout w).2 = w ∧ (take_stderr w).2 = w :=
  ⟨rfl, rfl, rfl⟩

/-- Claim C6: the borrowed and raw accessors have no side effects: each of
`stdin`/`stdout`/`stderr` and `raw_stdin`/`raw_stdout`/`raw_stderr` leaves the
world unchanged, and each returned value is the pure construction from the
corresponding compile-time constant. -/
theorem borrowed_raw_no_side_effects (w : World) :
    (stdin w).2 = w ∧ (stdout w).2 = w ∧ (stderr w).2 = w ∧
    (raw_stdin w).2 = w ∧ (raw_stdout w).2 = w ∧ (raw_stderr w).2 = w ∧
    (stdin w).1 = BorrowedFd.borrow_raw STDIN_FILENO ∧
    (stdout w).1 = BorrowedFd.borrow_raw STDOUT_FILENO ∧
    (stderr w).1 = BorrowedFd.borrow_raw STDERR_FILENO ∧
    (raw_stdin w).1 = STDIN_FILENO ∧ (raw_stdout w).1 = STDOUT_FILENO ∧
    (raw_stderr w).1 = STDERR_FILENO :=
  ⟨rfl, rfl, rfl, rfl, rfl, rfl, rfl, rfl, rfl, rfl, rfl, rfl⟩

/-- Claim C7: every accessor is total and always succeeds: for each of the
nine entry points, the possibly-failing interpretation of the body returns a
value on every call (no validation, no local failure path). -/
theorem accessors_total (e : EntryPoint) (w : World) :
    (invokeChecked e w).isSome = true := by
  cases e <;> rfl

/-- Claim C8: every accessor is deterministic: the value returned by an entry
point is the same on any two calls, whatever the world state at each call. -/
theorem accessors_deterministic (e : EntryPoint) (w w' : World) :
    (invoke e w).1 = (invoke e w').1 := by
  cases e <;> rfl

/-- Claim C9: for every standard slot kind, the `std` and `no_std` build
variants of the borrowed accessor compute the same value and have the same
effect on the world: the two configurations differ only in the safety
annotation. -/
theorem std_no_std_variants_agree (w : World) :
    stdin w = stdin_no_std w ∧ stdout w = stdout_no_std w ∧
    stderr w = stderr_no_std w :=
  ⟨rfl, rfl, rfl⟩

/-- Claim C10: every value the component produces wraps one of exactly the
three fixed platform constants: for every entry point, the underlying integer
of the returned handle or identity is `STDIN_FILENO`, `STDOUT_FILENO`, or
`STDERR_FILENO`. -/
theorem underlying_in_standard_slots (e : EntryPoint) (w : World) :
    (invoke e w).1.underlying = STDIN_FILENO ∨
    (invoke e w).1.underlying = STDOUT_FILENO ∨
    (invoke e w).1.underlying = STDERR_FILENO := by
  cases e
  all_goals first
    | exact Or.inl rfl
    | exact Or.inr (Or.inl rfl)
    | exact Or.inr (Or.inr rfl)

end Rustix
